import Mathlib

/-!
Shallow embedding of the course-management / portfolio web application:
the data model of `portfolio/models.py`, the request handlers of
`portfolio/views.py`, and `CourseEnrollmentForm.save` of
`portfolio/forms.py`, together with theorems settling the behavioural
claims about access control, enrollment, progress and grading.

Conventions of the embedding:
- Django model rows become structures; the database is a `Db` record of
  row lists.  Machine integers of the store are `Int`/`Nat`; `FloatField`
  and `DecimalField` values are `ℚ`.
- A request handler becomes a function `Db → … → Response × Db`: it
  returns the HTTP outcome and the updated database.
- `@login_required` is modelled by matching on `Requester`: an anonymous
  requester is redirected to the login page before the body runs.
- `get_object_or_404(Model, slug=slug)` becomes `List.find?` on the row
  list, answering `Response.http404` when no row matches.
-/

/-- The `access_level` choices shared by content models
(`public` / `registered` / `private` / `course_students`);
`priv` stands for the source string `'private'`. -/
inductive AccessLevel where
  | publicLevel
  | registered
  | priv
  | courseStudents
deriving DecidableEq

/-- `Enrollment.STATUS_CHOICES` in models.py. -/
inductive EnrollStatus where
  | active
  | paused
  | dropped
  | completed
deriving DecidableEq

/-- The fields of `CustomUser` that the embedded handlers consult. -/
structure User where
  id : Nat
  is_staff : Bool
  is_superuser : Bool
deriving DecidableEq

/-- A logged-in Django user always reports `is_authenticated = True`. -/
def User.is_authenticated (_ : User) : Bool := true

/-- `request.user`: either the anonymous user or a logged-in `CustomUser`. -/
inductive Requester where
  | anonymous
  | user (u : User)
deriving DecidableEq

/-- The fields of `Course` that the embedded handlers consult. -/
structure Course where
  id : Nat
  slug : String
  instructor_id : Nat
  enrollment_count : Int
  is_active : Bool
  is_open_for_enrollment : Bool
  is_free : Bool
  price : ℚ
deriving DecidableEq

/-- `CourseModule` rows (only the fields the handlers consult). -/
structure CourseModule where
  id : Nat
  course_id : Nat
  is_published : Bool
deriving DecidableEq

/-- `Enrollment` rows: the `(user, course)` pair and the status. -/
structure Enrollment where
  user_id : Nat
  course_id : Nat
  status : EnrollStatus
deriving DecidableEq

/-- `UserProgress` rows (the counters the handlers touch). -/
structure UserProgress where
  user_id : Nat
  course_id : Nat
  chapters_completed : Int
  total_chapters : Int
  assignments_submitted : Int
  current_chapter : Int
deriving DecidableEq

/-- `Assignment` rows: `id` is the primary key, `assignment_id` the unique
`CharField` used in URLs, `max_points` the grading cap that is displayed
but never enforced. -/
structure Assignment where
  id : Nat
  assignment_id : String
  course_id : Nat
  max_points : Int
deriving DecidableEq

/-- `Submission` rows; `assignment_pk` is the FK to `Assignment.id`. -/
structure Submission where
  id : Nat
  user_id : Nat
  assignment_pk : Nat
  file : Option String
  text_content : Option String
  grade : Option ℚ
  feedback : Option String
  is_graded : Bool
  graded_at : Option Nat
  graded_by : Option Nat
deriving DecidableEq

/-- `Document` rows; `owner` and `course` are nullable FKs. -/
structure Document where
  slug : String
  owner_id : Option Nat
  access_level : AccessLevel
  course : Option Nat
  is_published : Bool
  download_count : Int
deriving DecidableEq

/-- `BlogPost` rows; `author` is a nullable FK and `related_courses` a
many-to-many list of course ids. -/
structure BlogPost where
  slug : String
  author_id : Option Nat
  access_level : AccessLevel
  related_courses : List Nat
  is_published : Bool
  views : Int
deriving DecidableEq

/-- `Note` rows; `author` is a non-nullable FK, `course` nullable. -/
structure Note where
  slug : String
  author_id : Nat
  access_level : AccessLevel
  course : Option Nat
  is_published : Bool
deriving DecidableEq

/-- The relational store: one list of rows per model. -/
structure Db where
  courses : List Course
  modules : List CourseModule
  enrollments : List Enrollment
  progresses : List UserProgress
  assignments : List Assignment
  submissions : List Submission
  documents : List Document
  blogposts : List BlogPost
  notes : List Note
deriving DecidableEq

/-- Outcomes a handler can produce. -/
inductive Response where
  | loginRedirect
  | http404
  | redirect (target : String)
  | page
  | documentPage (allowed : Bool)
  | fileResponse
deriving DecidableEq

/-- `Enrollment.objects.filter(user=u, course=c).exists()` as the views
write it: the status column is not consulted. -/
def enrolled (db : Db) (uid cid : Nat) : Bool :=
  db.enrollments.any (fun e => e.user_id == uid && e.course_id == cid)

/-- `UserProgress.calculate_progress` (models.py): zero-guarded ratio
`chapters_completed / total_chapters * 100`. -/
def UserProgress.calculate_progress (p : UserProgress) : ℚ :=
  if p.total_chapters = 0 then 0
  else ((p.chapters_completed : ℚ) / (p.total_chapters : ℚ)) * 100

/-- The access-control chain of `blog_detail` (views.py): the branch that
denies, if any, for a logged-in user on a published post.  The `private`
branch admits only staff or superusers; the `course_students` branch with
related courses requires an enrollment (any status) in one of them, or
staff. -/
def blog_access_denial (db : Db) (u : User) (post : BlogPost) : Option Response :=
  if post.access_level == AccessLevel.priv then
    if !(u.is_staff || u.is_superuser) then some Response.http404 else none
  else if post.access_level == AccessLevel.registered then
    if !u.is_authenticated then some Response.loginRedirect else none
  else if post.access_level == AccessLevel.courseStudents then
    if post.related_courses.isEmpty then
      if !u.is_authenticated then some Response.loginRedirect else none
    else
      if !(db.enrollments.any (fun e =>
              e.user_id == u.id && post.related_courses.contains e.course_id))
          && !u.is_staff then
        some (Response.redirect "course_list")
      else none
  else none

/-- `blog_detail` (views.py): `@login_required`, slug lookup, publish check,
access chain, then `views += 1` and render. -/
def blog_detail (db : Db) (req : Requester) (slug : String) : Response × Db :=
  match req with
  | Requester.anonymous => (Response.loginRedirect, db)
  | Requester.user u =>
    match db.blogposts.find? (fun p => p.slug == slug) with
    | none => (Response.http404, db)
    | some post =>
      if !post.is_published then (Response.http404, db)
      else
        match blog_access_denial db u post with
        | some r => (r, db)
        | none =>
          (Response.page,
           { db with blogposts := db.blogposts.map (fun p =>
               if p.slug == slug then { p with views := p.views + 1 } else p) })

/-- The access-control chain of `note_detail` (views.py): the `private`
branch admits the author or staff; the `course_students` branch checks
enrollment (any status) only when a course is linked. -/
def note_access_denial (db : Db) (u : User) (note : Note) : Option Response :=
  if note.access_level == AccessLevel.priv then
    if note.author_id != u.id && !u.is_staff then some Response.http404 else none
  else if note.access_level == AccessLevel.registered then
    if !u.is_authenticated then some Response.loginRedirect else none
  else if note.access_level == AccessLevel.courseStudents then
    match note.course with
    | some cid =>
      if !(enrolled db u.id cid) && !u.is_staff then
        some (Response.redirect "course_detail")
      else none
    | none => none
  else none

/-- `note_detail` (views.py): `@login_required`, slug lookup, publish
check, access chain, render (no counters). -/
def note_detail (db : Db) (req : Requester) (slug : String) : Response × Db :=
  match req with
  | Requester.anonymous => (Response.loginRedirect, db)
  | Requester.user u =>
    match db.notes.find? (fun n => n.slug == slug) with
    | none => (Response.http404, db)
    | some note =>
      if !note.is_published then (Response.http404, db)
      else
        match note_access_denial db u note with
        | some r => (r, db)
        | none => (Response.page, db)

/-- The `can_download` chain shared verbatim by `document_detail` and
`document_download` (views.py).  With `course_students` and no linked
course, any authenticated requester qualifies. -/
def can_download (db : Db) (u : User) (doc : Document) : Bool :=
  if doc.access_level == AccessLevel.publicLevel then
    true
  else if doc.access_level == AccessLevel.registered && u.is_authenticated then
    true
  else if doc.access_level == AccessLevel.courseStudents then
    match doc.course with
    | some cid => enrolled db u.id cid || u.is_staff
    | none => u.is_authenticated
  else if doc.access_level == AccessLevel.priv
          && (doc.owner_id == some u.id || u.is_staff) then
    true
  else
    false

/-- `document_detail` (views.py): publish check, then renders the page
carrying the `can_download` flag; the database is not modified. -/
def document_detail (db : Db) (req : Requester) (slug : String) : Response × Db :=
  match req with
  | Requester.anonymous => (Response.loginRedirect, db)
  | Requester.user u =>
    match db.documents.find? (fun d => d.slug == slug) with
    | none => (Response.http404, db)
    | some doc =>
      if !doc.is_published then (Response.http404, db)
      else (Response.documentPage (can_download db u doc), db)

/-- `document_download` (views.py): access check, then
`download_count += 1` and a `FileResponse`.  The source performs no
publish check here. -/
def document_download (db : Db) (req : Requester) (slug : String) : Response × Db :=
  match req with
  | Requester.anonymous => (Response.loginRedirect, db)
  | Requester.user u =>
    match db.documents.find? (fun d => d.slug == slug) with
    | none => (Response.http404, db)
    | some doc =>
      if !(can_download db u doc) then
        (Response.redirect "document_detail", db)
      else
        (Response.fileResponse,
         { db with documents := db.documents.map (fun d =>
             if d.slug == slug then
               { d with download_count := d.download_count + 1 }
             else d) })

/-- `enroll_course` (views.py): `get_object_or_404` with
`is_active=True, is_open_for_enrollment=True`; redirect when already
enrolled; redirect when the course is paid; otherwise create one
`Enrollment` with status `'active'` and one `UserProgress` seeded with the
count of published modules and `current_chapter = 1`. -/
def enroll_course (db : Db) (req : Requester) (slug : String) : Response × Db :=
  match req with
  | Requester.anonymous => (Response.loginRedirect, db)
  | Requester.user u =>
    match db.courses.find? (fun c =>
        c.slug == slug && c.is_active && c.is_open_for_enrollment) with
    | none => (Response.http404, db)
    | some course =>
      if db.enrollments.any (fun e =>
          e.user_id == u.id && e.course_id == course.id) then
        (Response.redirect "course_detail", db)
      else if !course.is_free && decide (course.price > 0) then
        (Response.redirect "course_detail", db)
      else
        let total_chapters :=
          (db.modules.filter (fun m =>
            m.course_id == course.id && m.is_published)).length
        (Response.redirect "course_module_detail",
         { db with
             enrollments := db.enrollments ++
               [{ user_id := u.id, course_id := course.id,
                  status := EnrollStatus.active }],
             progresses := db.progresses ++
               [{ user_id := u.id, course_id := course.id,
                  chapters_completed := 0,
                  total_chapters := (total_chapters : Int),
                  assignments_submitted := 0,
                  current_chapter := 1 }] })

/-- `submit_assignment` (views.py), POST path with a valid form: lookup by
`assignment_id`, enrollment gate, then `form.save` with
`instance=existing_submission` — an update in place when a `(user,
assignment)` row exists, an insert otherwise — followed by
`UserProgress.objects.get_or_create` and `assignments_submitted += 1`.
`newPk` stands for the fresh primary key the store would assign. -/
def submit_assignment (db : Db) (req : Requester) (assignment_id : String)
    (file : Option String) (text_content : Option String) (newPk : Nat) :
    Response × Db :=
  match req with
  | Requester.anonymous => (Response.loginRedirect, db)
  | Requester.user u =>
    match db.assignments.find? (fun a => a.assignment_id == assignment_id) with
    | none => (Response.http404, db)
    | some a =>
      if !(db.enrollments.any (fun e =>
            e.user_id == u.id && e.course_id == a.course_id)) then
        (Response.redirect "course_detail", db)
      else
        let db1 : Db :=
          match db.submissions.find? (fun s =>
              s.user_id == u.id && s.assignment_pk == a.id) with
          | some _ =>
            { db with submissions := db.submissions.map (fun s =>
                if s.user_id == u.id && s.assignment_pk == a.id then
                  { s with file := file, text_content := text_content }
                else s) }
          | none =>
            { db with submissions := db.submissions ++
                [{ id := newPk, user_id := u.id, assignment_pk := a.id,
                   file := file, text_content := text_content,
                   grade := none, feedback := none, is_graded := false,
                   graded_at := none, graded_by := none }] }
        let db2 : Db :=
          match db1.progresses.find? (fun p =>
              p.user_id == u.id && p.course_id == a.course_id) with
          | some _ =>
            { db1 with progresses := db1.progresses.map (fun p =>
                if p.user_id == u.id && p.course_id == a.course_id then
                  { p with assignments_submitted := p.assignments_submitted + 1 }
                else p) }
          | none =>
            { db1 with progresses := db1.progresses ++
                [{ user_id := u.id, course_id := a.course_id,
                   chapters_completed := 0, total_chapters := 0,
                   assignments_submitted := 0 + 1, current_chapter := 1 }] }
        (Response.redirect "assignment_detail", db2)

/-- `instructor_grade_submission` (views.py), POST path: lookup by primary
key, instructor gate, then set `grade`, `feedback`, `is_graded`,
`graded_at`, `graded_by` and save.  No comparison against
`assignment.max_points` anywhere. -/
def instructor_grade_submission (db : Db) (req : Requester)
    (submission_id : Nat) (grade : ℚ) (feedback : String) (now : Nat) :
    Response × Db :=
  match req with
  | Requester.anonymous => (Response.loginRedirect, db)
  | Requester.user u =>
    match db.submissions.find? (fun s => s.id == submission_id) with
    | none => (Response.http404, db)
    | some s =>
      match db.assignments.find? (fun a => a.id == s.assignment_pk) with
      | none => (Response.http404, db)
      | some a =>
        match db.courses.find? (fun c => c.id == a.course_id) with
        | none => (Response.http404, db)
        | some course =>
          if course.instructor_id != u.id then
            (Response.redirect "instructor_dashboard", db)
          else
            (Response.redirect "instructor_submissions_list",
             { db with submissions := db.submissions.map (fun s2 =>
                 if s2.id == submission_id then
                   { s2 with
                     grade := some grade
                     feedback := some feedback
                     is_graded := true
                     graded_at := some now
                     graded_by := some u.id }
                 else s2) })

/-- `CourseEnrollmentForm.save` (forms.py): creates the enrollment (status
defaulting to `'active'`) and increments `course.enrollment_count`.  No
view function invokes this form; it is embedded to contrast with
`enroll_course`, which never touches the counter. -/
def CourseEnrollmentForm_save (db : Db) (uid cid : Nat) : Db :=
  { db with
      enrollments := db.enrollments ++
        [{ user_id := uid, course_id := cid, status := EnrollStatus.active }],
      courses := db.courses.map (fun c =>
        if c.id == cid then { c with enrollment_count := c.enrollment_count + 1 }
        else c) }

/-! ### Spec-level predicates and helper lemmas -/

/-- The spec's wording for the `course_students` rule: an **active**
enrollment of the requester in the given course.  Used to compare the
spec's rule with the code's status-free check. -/
def activeEnrolled (db : Db) (uid cid : Nat) : Bool :=
  db.enrollments.any (fun e =>
    e.user_id == uid && e.course_id == cid && e.status == EnrollStatus.active)

/-- At most one `Enrollment` row per `(user, course)` pair
(`unique_together = ['user', 'course']`). -/
def enrollUnique (db : Db) : Prop :=
  db.enrollments.Pairwise (fun e1 e2 =>
    ¬(e1.user_id = e2.user_id ∧ e1.course_id = e2.course_id))

/-- At most one `Submission` row per `(user, assignment)` pair
(`unique_together = ['user', 'assignment']`). -/
def subUnique (db : Db) : Prop :=
  db.submissions.Pairwise (fun s1 s2 =>
    ¬(s1.user_id = s2.user_id ∧ s1.assignment_pk = s2.assignment_pk))

theorem enrolled_iff (db : Db) (uid cid : Nat) :
    enrolled db uid cid = true ↔
      ∃ e ∈ db.enrollments, e.user_id = uid ∧ e.course_id = cid := by
  simp [enrolled, List.any_eq_true]

theorem enrolled_eq_false (db : Db) (uid cid : Nat)
    (h : ¬ ∃ e ∈ db.enrollments, e.user_id = uid ∧ e.course_id = cid) :
    enrolled db uid cid = false := by
  rw [← Bool.not_eq_true, enrolled_iff]
  exact h

/-- `find?` over a conditional row update: when the update preserves the
selection predicate, looking the row up afterwards answers the updated
row. -/
theorem find?_map_ite {α : Type _} (l : List α) (p : α → Bool) (f : α → α)
    (hf : ∀ a, p (f a) = p a) :
    (l.map (fun a => if p a then f a else a)).find? p = (l.find? p).map f := by
  induction l with
  | nil => simp
  | cons a t ih =>
    simp only [List.map_cons]
    by_cases h : p a = true
    · rw [if_pos h, List.find?_cons_of_pos _ ((hf a).trans h),
          List.find?_cons_of_pos _ h, Option.map_some']
    · rw [if_neg h, List.find?_cons_of_neg _ h, List.find?_cons_of_neg _ h, ih]

/-- Rows the selection predicate rejects survive a conditional row update
unchanged. -/
theorem mem_map_ite {α : Type _} {l : List α} {p : α → Bool} {f : α → α} {a : α}
    (ha : a ∈ l) (h : p a = false) :
    a ∈ l.map (fun x => if p x then f x else x) := by
  refine List.mem_map.mpr ⟨a, ha, ?_⟩
  simp [h]

/-! ### Claims -/

/-- C3: `UserProgress.calculate_progress` returns 0 when `total_chapters`
is 0, and otherwise `(chapters_completed / total_chapters) * 100`; in
particular it returns 50 for 5 completed out of 10. -/
theorem C3_calculate_progress :
    (∀ p : UserProgress, p.total_chapters = 0 → p.calculate_progress = 0) ∧
    (∀ p : UserProgress, p.total_chapters ≠ 0 →
      p.calculate_progress =
        ((p.chapters_completed : ℚ) / (p.total_chapters : ℚ)) * 100) ∧
    (∀ p : UserProgress, p.chapters_completed = 5 → p.total_chapters = 10 →
      p.calculate_progress = 50) := by
  refine ⟨?_, ?_, ?_⟩
  · intro p h
    simp [UserProgress.calculate_progress, h]
  · intro p h
    simp [UserProgress.calculate_progress, h]
  · intro p h5 h10
    rw [UserProgress.calculate_progress, h5, h10]
    norm_num

/-- Witness for C3 at the concrete record of the spec's example. -/
theorem C3_calculate_progress_witness :
    UserProgress.calculate_progress
      { user_id := 0, course_id := 0, chapters_completed := 5,
        total_chapters := 10, assignments_submitted := 0,
        current_chapter := 1 } = 50 :=
  C3_calculate_progress.2.2 _ rfl rfl

/-- C9: a `course_students` document with no linked course is viewable and
downloadable by every authenticated requester, with no enrollment,
ownership or staff condition: `can_download` answers true, the download
succeeds, and the detail page shows the download as allowed. -/
theorem C9_unlinked_course_students_document (db : Db) (u : User)
    (slug : String) (doc : Document)
    (hfind : db.documents.find? (fun d => d.slug == slug) = some doc)
    (hlevel : doc.access_level = AccessLevel.courseStudents)
    (hcourse : doc.course = none) :
    can_download db u doc = true ∧
    (document_download db (Requester.user u) slug).1 = Response.fileResponse ∧
    (doc.is_published = true →
      (document_detail db (Requester.user u) slug).1 =
        Response.documentPage true) := by
  have hcd : can_download db u doc = true := by
    simp [can_download, hlevel, hcourse, User.is_authenticated]
  refine ⟨hcd, ?_, ?_⟩
  · simp [document_download, hfind, hcd]
  · intro hpub
    simp [document_detail, hfind, hpub, hcd]

/-- Witness for C9: a non-staff, non-owner, non-enrolled user downloads an
unlinked `course_students` document. -/
theorem C9_unlinked_course_students_document_witness :
    (document_download
      { courses := [], modules := [], enrollments := [], progresses := [],
        assignments := [], submissions := [],
        documents := [{ slug := "d1", owner_id := some 7,
                        access_level := AccessLevel.courseStudents,
                        course := none, is_published := true,
                        download_count := 0 }],
        blogposts := [], notes := [] }
      (Requester.user { id := 3, is_staff := false, is_superuser := false })
      "d1").1 = Response.fileResponse :=
  (C9_unlinked_course_students_document
    { courses := [], modules := [], enrollments := [], progresses := [],
      assignments := [], submissions := [],
      documents := [{ slug := "d1", owner_id := some 7,
                      access_level := AccessLevel.courseStudents,
                      course := none, is_published := true,
                      download_count := 0 }],
      blogposts := [], notes := [] }
    { id := 3, is_staff := false, is_superuser := false } "d1"
    { slug := "d1", owner_id := some 7,
      access_level := AccessLevel.courseStudents,
      course := none, is_published := true, download_count := 0 }
    rfl rfl rfl).2.1

/-- C10: the `enroll_course` handler leaves the `courses` table — and so
every course's `enrollment_count` — untouched on every path, while the
increment lives only in `CourseEnrollmentForm.save`, a form no view
invokes. -/
theorem C10_enroll_course_frame :
    (∀ (db : Db) (req : Requester) (slug : String),
        ((enroll_course db req slug).2).courses = db.courses) ∧
    (∀ (db : Db) (uid cid : Nat) (course : Course),
        db.courses.find? (fun c => c.id == cid) = some course →
        (CourseEnrollmentForm_save db uid cid).courses.find?
            (fun c => c.id == cid) =
          some { course with
                 enrollment_count := course.enrollment_count + 1 }) := by
  constructor
  · intro db req slug
    cases req with
    | anonymous => rfl
    | user u =>
      simp only [enroll_course]
      cases hfind : db.courses.find? (fun c =>
          c.slug == slug && c.is_active && c.is_open_for_enrollment) with
      | none => rfl
      | some course =>
        dsimp only
        split
        · rfl
        · split <;> rfl
  · intro db uid cid course hfind
    unfold CourseEnrollmentForm_save
    dsimp only
    rw [find?_map_ite db.courses (fun c => c.id == cid)
          (fun c => { c with enrollment_count := c.enrollment_count + 1 })
          (fun a => rfl), hfind]
    rfl

/-- Witness for C10: the unused form save increments the counter of a
concrete course from 5 to 6 (the handler itself never does). -/
theorem C10_enroll_course_frame_witness :
    (CourseEnrollmentForm_save
      { courses := [{ id := 1, slug := "c", instructor_id := 2,
                      enrollment_count := 5, is_active := true,
                      is_open_for_enrollment := true, is_free := true,
                      price := 0 }],
        modules := [], enrollments := [], progresses := [],
        assignments := [], submissions := [], documents := [],
        blogposts := [], notes := [] }
      4 1).courses.find? (fun c => c.id == 1) =
      some { id := 1, slug := "c", instructor_id := 2,
             enrollment_count := 6, is_active := true,
             is_open_for_enrollment := true, is_free := true, price := 0 } :=
  C10_enroll_course_frame.2
    { courses := [{ id := 1, slug := "c", instructor_id := 2,
                    enrollment_count := 5, is_active := true,
                    is_open_for_enrollment := true, is_free := true,
                    price := 0 }],
      modules := [], enrollments := [], progresses := [],
      assignments := [], submissions := [], documents := [],
      blogposts := [], notes := [] }
    4 1
    { id := 1, slug := "c", instructor_id := 2, enrollment_count := 5,
      is_active := true, is_open_for_enrollment := true, is_free := true,
      price := 0 }
    rfl

/-- C2, counterexample: the author of their own private, published blog
post — not staff, not a superuser — receives a 404; `blog_detail` grants
`private` access to staff/superusers only, so "a request by the post's
author succeeds" fails on the code. -/
theorem C2_counterexample :
    (blog_detail
      { courses := [], modules := [], enrollments := [], progresses := [],
        assignments := [], submissions := [], documents := [],
        blogposts := [{ slug := "p1", author_id := some 6,
                        access_level := AccessLevel.priv,
                        related_courses := [], is_published := true,
                        views := 0 }],
        notes := [] }
      (Requester.user { id := 6, is_staff := false, is_superuser := false })
      "p1").1 = Response.http404 := by decide

/-- C2, amended: for private Notes the requester must be the author or
staff, for private Documents the owner or staff, but for private BlogPosts
only staff or superusers are admitted — the author has no special access;
anonymous requests are always redirected to login. -/
theorem C2_private_access (db : Db) (u : User) (slug : String) :
    (∀ note : Note, db.notes.find? (fun n => n.slug == slug) = some note →
      note.is_published = true → note.access_level = AccessLevel.priv →
      ((note_detail db (Requester.user u) slug).1 = Response.page ↔
        (note.author_id = u.id ∨ u.is_staff = true))) ∧
    (∀ doc : Document, doc.access_level = AccessLevel.priv →
      (can_download db u doc = true ↔
        (doc.owner_id = some u.id ∨ u.is_staff = true))) ∧
    (∀ post : BlogPost,
      db.blogposts.find? (fun p => p.slug == slug) = some post →
      post.is_published = true → post.access_level = AccessLevel.priv →
      ((blog_detail db (Requester.user u) slug).1 = Response.page ↔
        (u.is_staff = true ∨ u.is_superuser = true))) ∧
    ((blog_detail db Requester.anonymous slug).1 = Response.loginRedirect ∧
      (note_detail db Requester.anonymous slug).1 = Response.loginRedirect ∧
      (document_download db Requester.anonymous slug).1 =
        Response.loginRedirect) := by
  refine ⟨?_, ?_, ?_, rfl, rfl, rfl⟩
  · intro note hfind hpub hlevel
    rcases Bool.eq_false_or_eq_true u.is_staff with hS | hS <;>
      by_cases hA : note.author_id = u.id <;>
        simp [note_detail, hfind, hpub, note_access_denial, hlevel, hA, hS]
  · intro doc hlevel
    rcases Bool.eq_false_or_eq_true u.is_staff with hS | hS <;>
      by_cases hO : doc.owner_id = some u.id <;>
        simp [can_download, hlevel, hO, hS]
  · intro post hfind hpub hlevel
    rcases Bool.eq_false_or_eq_true u.is_staff with hS | hS <;>
      rcases Bool.eq_false_or_eq_true u.is_superuser with hU | hU <;>
        simp [blog_detail, hfind, hpub, blog_access_denial, hlevel, hS, hU]

/-- Witness for C2 (amended): the author reads their own private note, and
a staff user reads a private blog post. -/
theorem C2_private_access_witness :
    (note_detail
      { courses := [], modules := [], enrollments := [], progresses := [],
        assignments := [], submissions := [], documents := [],
        blogposts := [],
        notes := [{ slug := "n1", author_id := 6,
                    access_level := AccessLevel.priv, course := none,
                    is_published := true }] }
      (Requester.user { id := 6, is_staff := false, is_superuser := false })
      "n1").1 = Response.page :=
  ((C2_private_access
      { courses := [], modules := [], enrollments := [], progresses := [],
        assignments := [], submissions := [], documents := [],
        blogposts := [],
        notes := [{ slug := "n1", author_id := 6,
                    access_level := AccessLevel.priv, course := none,
                    is_published := true }] }
      { id := 6, is_staff := false, is_superuser := false }
      "n1").1
    { slug := "n1", author_id := 6, access_level := AccessLevel.priv,
      course := none, is_published := true }
    rfl rfl rfl).mpr (Or.inl rfl)

theorem note_access_denial_ne_page (db : Db) (u : User) (note : Note) :
    note_access_denial db u note ≠ some Response.page := by
  unfold note_access_denial
  repeat' split
  all_goals simp

theorem blog_access_denial_ne_page (db : Db) (u : User) (post : BlogPost) :
    blog_access_denial db u post ≠ some Response.page := by
  unfold blog_access_denial
  repeat' split
  all_goals simp

/-- A download request by a logged-in user succeeds exactly when the
`can_download` chain grants it. -/
theorem download_result_iff (db : Db) (u : User) (slug : String)
    (doc : Document)
    (hfind : db.documents.find? (fun d => d.slug == slug) = some doc) :
    (document_download db (Requester.user u) slug).1 = Response.fileResponse ↔
      can_download db u doc = true := by
  rcases hcd : can_download db u doc with _ | _ <;>
    simp [document_download, hfind, hcd]

/-- A note page renders for a logged-in user exactly when the access chain
raises no denial. -/
theorem note_result_iff (db : Db) (u : User) (slug : String) (note : Note)
    (hfind : db.notes.find? (fun n => n.slug == slug) = some note)
    (hpub : note.is_published = true) :
    (note_detail db (Requester.user u) slug).1 = Response.page ↔
      note_access_denial db u note = none := by
  simp only [note_detail, hfind, hpub]
  cases hd : note_access_denial db u note with
  | none => simp
  | some r =>
    simp only [Bool.not_true, Bool.false_eq_true, if_false]
    constructor
    · intro h
      exact absurd (h ▸ hd) (note_access_denial_ne_page db u note)
    · intro h
      exact absurd h (by simp)

/-- A blog page renders for a logged-in user exactly when the access chain
raises no denial. -/
theorem blog_result_iff (db : Db) (u : User) (slug : String) (post : BlogPost)
    (hfind : db.blogposts.find? (fun p => p.slug == slug) = some post)
    (hpub : post.is_published = true) :
    (blog_detail db (Requester.user u) slug).1 = Response.page ↔
      blog_access_denial db u post = none := by
  simp only [blog_detail, hfind, hpub]
  cases hd : blog_access_denial db u post with
  | none => simp
  | some r =>
    simp only [Bool.not_true, Bool.false_eq_true, if_false]
    constructor
    · intro h
      exact absurd (h ▸ hd) (blog_access_denial_ne_page db u post)
    · intro h
      exact absurd h (by simp)

/-- C1, counterexample: a user whose only enrollment in the linked course
has status `'dropped'` — and who is not staff — still downloads a
`course_students` document: the views test bare existence of an
`Enrollment`, never its status. -/
theorem C1_counterexample :
    (document_download
      { courses := [], modules := [],
        enrollments := [{ user_id := 0, course_id := 1,
                          status := EnrollStatus.dropped }],
        progresses := [], assignments := [], submissions := [],
        documents := [{ slug := "doc1", owner_id := some 9,
                        access_level := AccessLevel.courseStudents,
                        course := some 1, is_published := true,
                        download_count := 0 }],
        blogposts := [], notes := [] }
      (Requester.user { id := 0, is_staff := false, is_superuser := false })
      "doc1").1 = Response.fileResponse ∧
    activeEnrolled
      { courses := [], modules := [],
        enrollments := [{ user_id := 0, course_id := 1,
                          status := EnrollStatus.dropped }],
        progresses := [], assignments := [], submissions := [],
        documents := [{ slug := "doc1", owner_id := some 9,
                        access_level := AccessLevel.courseStudents,
                        course := some 1, is_published := true,
                        download_count := 0 }],
        blogposts := [], notes := [] }
      0 1 = false := by decide

/-- C1, amended: for `course_students` content linked to a course, access
is granted exactly when the requester has an `Enrollment` row of **any**
status in the linked course (for blog posts: in one of the related
courses), or is staff; the code never restricts to active enrollments. -/
theorem C1_course_students_access (db : Db) (u : User) (slug : String) :
    (∀ (doc : Document) (cid : Nat),
      db.documents.find? (fun d => d.slug == slug) = some doc →
      doc.access_level = AccessLevel.courseStudents → doc.course = some cid →
      ((document_download db (Requester.user u) slug).1 =
          Response.fileResponse ↔
        ((∃ e ∈ db.enrollments, e.user_id = u.id ∧ e.course_id = cid) ∨
          u.is_staff = true))) ∧
    (∀ (note : Note) (cid : Nat),
      db.notes.find? (fun n => n.slug == slug) = some note →
      note.is_published = true →
      note.access_level = AccessLevel.courseStudents → note.course = some cid →
      ((note_detail db (Requester.user u) slug).1 = Response.page ↔
        ((∃ e ∈ db.enrollments, e.user_id = u.id ∧ e.course_id = cid) ∨
          u.is_staff = true))) ∧
    (∀ post : BlogPost,
      db.blogposts.find? (fun p => p.slug == slug) = some post →
      post.is_published = true →
      post.access_level = AccessLevel.courseStudents →
      post.related_courses ≠ [] →
      ((blog_detail db (Requester.user u) slug).1 = Response.page ↔
        ((∃ e ∈ db.enrollments, e.user_id = u.id ∧
            e.course_id ∈ post.related_courses) ∨ u.is_staff = true))) := by
  refine ⟨?_, ?_, ?_⟩
  · intro doc cid hfind hlevel hcourse
    rw [download_result_iff db u slug doc hfind]
    have hcd : can_download db u doc = (enrolled db u.id cid || u.is_staff) := by
      simp [can_download, hlevel, hcourse]
    rw [hcd, Bool.or_eq_true, enrolled_iff]
  · intro note cid hfind hpub hlevel hcourse
    rw [note_result_iff db u slug note hfind hpub, ← enrolled_iff]
    rcases hE : enrolled db u.id cid with _ | _ <;>
      rcases hS : u.is_staff with _ | _ <;>
        simp [note_access_denial, hlevel, hcourse, hE, hS]
  · intro post hfind hpub hlevel hne
    rw [blog_result_iff db u slug post hfind hpub]
    have hnoempty : post.related_courses.isEmpty = false := by
      cases h : post.related_courses with
      | nil => exact absurd h hne
      | cons a t => rfl
    rcases hE : db.enrollments.any (fun e =>
        e.user_id == u.id && post.related_courses.contains e.course_id)
        with _ | _ <;>
      rcases hS : u.is_staff with _ | _ <;>
        simp [blog_access_denial, hlevel, hnoempty, hE, hS]

/-- Witness for C1 (amended): a user with a `'paused'` enrollment in the
linked course reads a `course_students` note. -/
theorem C1_course_students_access_witness :
    (note_detail
      { courses := [], modules := [],
        enrollments := [{ user_id := 2, course_id := 5,
                          status := EnrollStatus.paused }],
        progresses := [], assignments := [], submissions := [],
        documents := [], blogposts := [],
        notes := [{ slug := "n2", author_id := 9,
                    access_level := AccessLevel.courseStudents,
                    course := some 5, is_published := true }] }
      (Requester.user { id := 2, is_staff := false, is_superuser := false })
      "n2").1 = Response.page :=
  ((C1_course_students_access
      { courses := [], modules := [],
        enrollments := [{ user_id := 2, course_id := 5,
                          status := EnrollStatus.paused }],
        progresses := [], assignments := [], submissions := [],
        documents := [], blogposts := [],
        notes := [{ slug := "n2", author_id := 9,
                    access_level := AccessLevel.courseStudents,
                    course := some 5, is_published := true }] }
      { id := 2, is_staff := false, is_superuser := false }
      "n2").2.1
    { slug := "n2", author_id := 9,
      access_level := AccessLevel.courseStudents,
      course := some 5, is_published := true }
    5 rfl rfl rfl rfl).mpr
    (Or.inl ⟨{ user_id := 2, course_id := 5, status := EnrollStatus.paused },
      by simp, rfl, rfl⟩)

/-- C5, counterexample: an active course open for enrollment but priced at
50 (`is_free = false`): the first enrollment request of a new user creates
no `Enrollment` row at all — the handler redirects at the payment gate —
refuting the claim for arbitrary active/open courses. -/
theorem C5_counterexample :
    (enroll_course
      { courses := [{ id := 1, slug := "c1", instructor_id := 9,
                      enrollment_count := 0, is_active := true,
                      is_open_for_enrollment := true, is_free := false,
                      price := 50 }],
        modules := [], enrollments := [], progresses := [],
        assignments := [], submissions := [], documents := [],
        blogposts := [], notes := [] }
      (Requester.user { id := 0, is_staff := false, is_superuser := false })
      "c1").2.enrollments = [] ∧
    (enroll_course
      { courses := [{ id := 1, slug := "c1", instructor_id := 9,
                      enrollment_count := 0, is_active := true,
                      is_open_for_enrollment := true, is_free := false,
                      price := 50 }],
        modules := [], enrollments := [], progresses := [],
        assignments := [], submissions := [], documents := [],
        blogposts := [], notes := [] }
      (Requester.user { id := 0, is_staff := false, is_superuser := false })
      "c1").1 = Response.redirect "course_detail" := by decide

/-- C5, amended: for an active course open for enrollment that is also
free (`is_free`, or a non-positive price), a first enrollment request
appends exactly one `Enrollment` row with status `'active'` and exactly
one `UserProgress` row whose `total_chapters` is the number of published
modules of the course. -/
theorem C5_enroll_free_course (db : Db) (u : User) (slug : String)
    (course : Course)
    (hfind : db.courses.find? (fun c =>
        c.slug == slug && c.is_active && c.is_open_for_enrollment) =
        some course)
    (hnew : ¬ ∃ e ∈ db.enrollments, e.user_id = u.id ∧ e.course_id = course.id)
    (hfree : course.is_free = true ∨ course.price ≤ 0) :
    (enroll_course db (Requester.user u) slug).2.enrollments =
      db.enrollments ++
        [{ user_id := u.id, course_id := course.id,
           status := EnrollStatus.active }] ∧
    (enroll_course db (Requester.user u) slug).2.progresses =
      db.progresses ++
        [{ user_id := u.id, course_id := course.id, chapters_completed := 0,
           total_chapters := ((db.modules.countP (fun m =>
             m.course_id == course.id && m.is_published)) : Int),
           assignments_submitted := 0, current_chapter := 1 }] := by
  have hany : (db.enrollments.any fun e =>
      e.user_id == u.id && e.course_id == course.id) = false := by
    rw [← Bool.not_eq_true, List.any_eq_true]
    simpa using hnew
  have hpay : (!course.is_free && decide (course.price > 0)) = false := by
    rcases hfree with h | h
    · simp [h]
    · simp [decide_eq_false (not_lt.mpr h)]
  simp [enroll_course, hfind, hany, hpay, List.countP_eq_length_filter]

/-- Witness for C5 (amended): enrolling in a free course with one
published and one unpublished module seeds `total_chapters = 1`. -/
theorem C5_enroll_free_course_witness :
    (enroll_course
      { courses := [{ id := 1, slug := "c1", instructor_id := 9,
                      enrollment_count := 0, is_active := true,
                      is_open_for_enrollment := true, is_free := true,
                      price := 0 }],
        modules := [{ id := 1, course_id := 1, is_published := true },
                    { id := 2, course_id := 1, is_published := false }],
        enrollments := [], progresses := [], assignments := [],
        submissions := [], documents := [], blogposts := [], notes := [] }
      (Requester.user { id := 0, is_staff := false, is_superuser := false })
      "c1").2.progresses =
      [{ user_id := 0, course_id := 1, chapters_completed := 0,
         total_chapters := 1, assignments_submitted := 0,
         current_chapter := 1 }] :=
  (C5_enroll_free_course
    { courses := [{ id := 1, slug := "c1", instructor_id := 9,
                    enrollment_count := 0, is_active := true,
                    is_open_for_enrollment := true, is_free := true,
                    price := 0 }],
      modules := [{ id := 1, course_id := 1, is_published := true },
                  { id := 2, course_id := 1, is_published := false }],
      enrollments := [], progresses := [], assignments := [],
      submissions := [], documents := [], blogposts := [], notes := [] }
    { id := 0, is_staff := false, is_superuser := false } "c1"
    { id := 1, slug := "c1", instructor_id := 9, enrollment_count := 0,
      is_active := true, is_open_for_enrollment := true, is_free := true,
      price := 0 }
    rfl (by simp) (Or.inl rfl)).2

/-- C4: a permitted download answers the file and bumps exactly the
target document's `download_count` by 1 (other documents survive
unchanged); a denied download, the detail page and every other embedded
handler leave the `documents` table untouched. -/
theorem C4_download_count_increment :
    (∀ (db : Db) (u : User) (slug : String) (doc : Document),
      db.documents.find? (fun d => d.slug == slug) = some doc →
      can_download db u doc = true →
      (document_download db (Requester.user u) slug).1 =
          Response.fileResponse ∧
      (document_download db (Requester.user u) slug).2.documents.find?
          (fun d => d.slug == slug) =
        some { doc with download_count := doc.download_count + 1 } ∧
      (∀ d ∈ db.documents, d.slug ≠ slug →
        d ∈ (document_download db (Requester.user u) slug).2.documents)) ∧
    (∀ (db : Db) (u : User) (slug : String) (doc : Document),
      db.documents.find? (fun d => d.slug == slug) = some doc →
      can_download db u doc = false →
      document_download db (Requester.user u) slug =
        (Response.redirect "document_detail", db)) ∧
    (∀ (db : Db) (req : Requester) (slug : String),
      (document_detail db req slug).2 = db) ∧
    (∀ (db : Db) (req : Requester) (slug : String),
      (blog_detail db req slug).2.documents = db.documents) ∧
    (∀ (db : Db) (req : Requester) (slug : String),
      (note_detail db req slug).2 = db) ∧
    (∀ (db : Db) (req : Requester) (slug : String),
      (enroll_course db req slug).2.documents = db.documents) ∧
    (∀ (db : Db) (req : Requester) (aid : String)
        (file text : Option String) (pk : Nat),
      (submit_assignment db req aid file text pk).2.documents =
        db.documents) ∧
    (∀ (db : Db) (req : Requester) (sid : Nat) (g : ℚ) (fb : String)
        (now : Nat),
      (instructor_grade_submission db req sid g fb now).2.documents =
        db.documents) := by
  refine ⟨?_, ?_, ?_, ?_, ?_, ?_, ?_, ?_⟩
  · intro db u slug doc hfind hcd
    refine ⟨?_, ?_, ?_⟩
    · simp [document_download, hfind, hcd]
    · simp only [document_download, hfind, hcd, Bool.not_true,
        Bool.false_eq_true, if_false]
      rw [find?_map_ite db.documents (fun d => d.slug == slug)
            (fun d => { d with download_count := d.download_count + 1 })
            (fun a => rfl), hfind]
      rfl
    · intro d hd hne
      simp only [document_download, hfind, hcd, Bool.not_true,
        Bool.false_eq_true, if_false]
      exact mem_map_ite hd (by simp [hne])
  · intro db u slug doc hfind hcd
    simp [document_download, hfind, hcd]
  · intro db req slug
    cases req with
    | anonymous => rfl
    | user u =>
      simp only [document_detail]
      cases hfind : db.documents.find? (fun d => d.slug == slug) with
      | none => rfl
      | some doc =>
        dsimp only
        split <;> rfl
  · intro db req slug
    cases req with
    | anonymous => rfl
    | user u =>
      simp only [blog_detail]
      cases hfind : db.blogposts.find? (fun p => p.slug == slug) with
      | none => rfl
      | some post =>
        dsimp only
        split
        · rfl
        · split <;> rfl
  · intro db req slug
    cases req with
    | anonymous => rfl
    | user u =>
      simp only [note_detail]
      cases hfind : db.notes.find? (fun n => n.slug == slug) with
      | none => rfl
      | some note =>
        dsimp only
        split
        · rfl
        · split <;> rfl
  · intro db req slug
    cases req with
    | anonymous => rfl
    | user u =>
      simp only [enroll_course]
      cases hfind : db.courses.find? (fun c =>
          c.slug == slug && c.is_active && c.is_open_for_enrollment) with
      | none => rfl
      | some course =>
        dsimp only
        split
        · rfl
        · split <;> rfl
  · intro db req aid file text pk
    cases req with
    | anonymous => rfl
    | user u =>
      simp only [submit_assignment]
      cases hfind : db.assignments.find? (fun a =>
          a.assignment_id == aid) with
      | none => rfl
      | some a =>
        dsimp only
        split
        · rfl
        · split <;> split <;> rfl
  · intro db req sid g fb now
    cases req with
    | anonymous => rfl
    | user u =>
      simp only [instructor_grade_submission]
      repeat' split
      all_goals rfl

/-- Witness for C4: downloading a public document bumps its counter from
0 to 1 while a second document stays untouched. -/
theorem C4_download_count_increment_witness :
    (document_download
      { courses := [], modules := [], enrollments := [], progresses := [],
        assignments := [], submissions := [],
        documents := [{ slug := "a", owner_id := none,
                        access_level := AccessLevel.publicLevel,
                        course := none, is_published := true,
                        download_count := 0 },
                      { slug := "b", owner_id := none,
                        access_level := AccessLevel.publicLevel,
                        course := none, is_published := true,
                        download_count := 7 }],
        blogposts := [], notes := [] }
      (Requester.user { id := 1, is_staff := false, is_superuser := false })
      "a").2.documents.find? (fun d => d.slug == "a") =
      some { slug := "a", owner_id := none,
             access_level := AccessLevel.publicLevel, course := none,
             is_published := true, download_count := 1 } :=
  (C4_download_count_increment.1
    { courses := [], modules := [], enrollments := [], progresses := [],
      assignments := [], submissions := [],
      documents := [{ slug := "a", owner_id := none,
                      access_level := AccessLevel.publicLevel,
                      course := none, is_published := true,
                      download_count := 0 },
                    { slug := "b", owner_id := none,
                      access_level := AccessLevel.publicLevel,
                      course := none, is_published := true,
                      download_count := 7 }],
      blogposts := [], notes := [] }
    { id := 1, is_staff := false, is_superuser := false } "a"
    { slug := "a", owner_id := none,
      access_level := AccessLevel.publicLevel, course := none,
      is_published := true, download_count := 0 }
    rfl rfl).2.1

/-- C6: at most one `Enrollment` row per `(user, course)` pair: the
handler preserves the invariant on every path, a second enrollment request
by an enrolled user is rejected with the database unchanged, and no other
embedded handler writes the `enrollments` table. -/
theorem C6_enrollment_uniqueness :
    (∀ (db : Db) (req : Requester) (slug : String),
      enrollUnique db → enrollUnique (enroll_course db req slug).2) ∧
    (∀ (db : Db) (u : User) (slug : String) (course : Course),
      db.courses.find? (fun c =>
        c.slug == slug && c.is_active && c.is_open_for_enrollment) =
        some course →
      (∃ e ∈ db.enrollments, e.user_id = u.id ∧ e.course_id = course.id) →
      enroll_course db (Requester.user u) slug =
        (Response.redirect "course_detail", db)) ∧
    (∀ (db : Db) (req : Requester) (slug : String),
      (blog_detail db req slug).2.enrollments = db.enrollments ∧
      (note_detail db req slug).2.enrollments = db.enrollments ∧
      (document_detail db req slug).2.enrollments = db.enrollments ∧
      (document_download db req slug).2.enrollments = db.enrollments) ∧
    (∀ (db : Db) (req : Requester) (aid : String)
        (file text : Option String) (pk : Nat),
      (submit_assignment db req aid file text pk).2.enrollments =
        db.enrollments) ∧
    (∀ (db : Db) (req : Requester) (sid : Nat) (g : ℚ) (fb : String)
        (now : Nat),
      (instructor_grade_submission db req sid g fb now).2.enrollments =
        db.enrollments) := by
  refine ⟨?_, ?_, ?_, ?_, ?_⟩
  · intro db req slug hU
    cases req with
    | anonymous => exact hU
    | user u =>
      simp only [enroll_course]
      cases hfind : db.courses.find? (fun c =>
          c.slug == slug && c.is_active && c.is_open_for_enrollment) with
      | none => exact hU
      | some course =>
        dsimp only
        split
        · exact hU
        · rename_i hnot
          split
          · exact hU
          · refine List.pairwise_append.mpr
              ⟨hU, List.pairwise_singleton _ _, ?_⟩
            intro a ha b hb
            simp only [List.mem_singleton] at hb
            subst hb
            rintro ⟨h1, h2⟩
            apply hnot
            rw [List.any_eq_true]
            exact ⟨a, ha, by simp [h1, h2]⟩
  · intro db u slug course hfind hex
    have hany : (db.enrollments.any fun e =>
        e.user_id == u.id && e.course_id == course.id) = true := by
      rw [List.any_eq_true]
      obtain ⟨e, he, h1, h2⟩ := hex
      exact ⟨e, he, by simp [h1, h2]⟩
    simp [enroll_course, hfind, hany]
  · intro db req slug
    cases req with
    | anonymous => exact ⟨rfl, rfl, rfl, rfl⟩
    | user u =>
      refine ⟨?_, ?_, ?_, ?_⟩
      · simp only [blog_detail]
        cases hfind : db.blogposts.find? (fun p => p.slug == slug) with
        | none => rfl
        | some post =>
          dsimp only
          split
          · rfl
          · split <;> rfl
      · simp only [note_detail]
        cases hfind : db.notes.find? (fun n => n.slug == slug) with
        | none => rfl
        | some note =>
          dsimp only
          split
          · rfl
          · split <;> rfl
      · simp only [document_detail]
        cases hfind : db.documents.find? (fun d => d.slug == slug) with
        | none => rfl
        | some doc =>
          dsimp only
          split <;> rfl
      · simp only [document_download]
        cases hfind : db.documents.find? (fun d => d.slug == slug) with
        | none => rfl
        | some doc =>
          dsimp only
          split <;> rfl
  · intro db req aid file text pk
    cases req with
    | anonymous => rfl
    | user u =>
      simp only [submit_assignment]
      cases hfind : db.assignments.find? (fun a =>
          a.assignment_id == aid) with
      | none => rfl
      | some a =>
        dsimp only
        split
        · rfl
        · split <;> split <;> rfl
  · intro db req sid g fb now
    cases req with
    | anonymous => rfl
    | user u =>
      simp only [instructor_grade_submission]
      repeat' split
      all_goals rfl

/-- Witness for C6: a user already enrolled (status `'completed'`) in a
course is turned away and the database is unchanged. -/
theorem C6_enrollment_uniqueness_witness :
    enroll_course
      { courses := [{ id := 1, slug := "c1", instructor_id := 9,
                      enrollment_count := 0, is_active := true,
                      is_open_for_enrollment := true, is_free := true,
                      price := 0 }],
        modules := [],
        enrollments := [{ user_id := 0, course_id := 1,
                          status := EnrollStatus.completed }],
        progresses := [], assignments := [], submissions := [],
        documents := [], blogposts := [], notes := [] }
      (Requester.user { id := 0, is_staff := false, is_superuser := false })
      "c1" =
      (Response.redirect "course_detail",
       { courses := [{ id := 1, slug := "c1", instructor_id := 9,
                       enrollment_count := 0, is_active := true,
                       is_open_for_enrollment := true, is_free := true,
                       price := 0 }],
         modules := [],
         enrollments := [{ user_id := 0, course_id := 1,
                           status := EnrollStatus.completed }],
         progresses := [], assignments := [], submissions := [],
         documents := [], blogposts := [], notes := [] }) :=
  C6_enrollment_uniqueness.2.1
    { courses := [{ id := 1, slug := "c1", instructor_id := 9,
                    enrollment_count := 0, is_active := true,
                    is_open_for_enrollment := true, is_free := true,
                    price := 0 }],
      modules := [],
      enrollments := [{ user_id := 0, course_id := 1,
                        status := EnrollStatus.completed }],
      progresses := [], assignments := [], submissions := [],
      documents := [], blogposts := [], notes := [] }
    { id := 0, is_staff := false, is_superuser := false } "c1"
    { id := 1, slug := "c1", instructor_id := 9, enrollment_count := 0,
      is_active := true, is_open_for_enrollment := true, is_free := true,
      price := 0 }
    rfl
    ⟨{ user_id := 0, course_id := 1, status := EnrollStatus.completed },
      by simp, rfl, rfl⟩

/-- One assignment-submission request, as data: used to state invariants
over arbitrary sequences of submissions. -/
structure SubmitReq where
  requester : Requester
  assignment_id : String
  file : Option String
  text_content : Option String
  newPk : Nat

/-- Run a sequence of `submit_assignment` requests left to right. -/
def apply_submissions (db : Db) (rs : List SubmitReq) : Db :=
  rs.foldl (fun d r =>
    (submit_assignment d r.requester r.assignment_id r.file
      r.text_content r.newPk).2) db

theorem submit_preserves_subUnique (db : Db) (req : Requester)
    (aid : String) (file text : Option String) (pk : Nat)
    (hU : subUnique db) :
    subUnique (submit_assignment db req aid file text pk).2 := by
  cases req with
  | anonymous => exact hU
  | user u =>
    simp only [submit_assignment]
    cases hA : db.assignments.find? (fun x => x.assignment_id == aid) with
    | none => exact hU
    | some a =>
      dsimp only
      split
      · exact hU
      · cases hS : db.submissions.find? (fun s =>
            s.user_id == u.id && s.assignment_pk == a.id) with
        | some s0 =>
          dsimp only
          split
          all_goals
            refine List.Pairwise.map _ ?_ hU
          all_goals
            intro x y hxy
          all_goals
            by_cases hx : (x.user_id == u.id && x.assignment_pk == a.id)
                = true <;>
              by_cases hy : (y.user_id == u.id && y.assignment_pk == a.id)
                  = true <;>
                simpa [hx, hy] using hxy
        | none =>
          dsimp only
          split
          all_goals
            refine List.pairwise_append.mpr
              ⟨hU, List.pairwise_singleton _ _, ?_⟩
          all_goals
            intro x hx b hb
          all_goals
            simp only [List.mem_singleton] at hb
          all_goals
            subst hb
          all_goals
            rintro ⟨h1, h2⟩
          all_goals
            have hnone := List.find?_eq_none.mp hS x hx
          all_goals
            simp [h1, h2] at hnone

/-- C7: `submit_assignment` preserves the one-`Submission`-per-`(user,
assignment)` invariant on every path — hence over any sequence of
submission requests — and for an enrolled user with an existing row a new
submission rewrites that row in place: the table keeps its length and the
pair now maps to the updated row. -/
theorem C7_submission_uniqueness :
    (∀ (db : Db) (req : Requester) (aid : String)
        (file text : Option String) (pk : Nat),
      subUnique db → subUnique (submit_assignment db req aid file text pk).2) ∧
    (∀ (db : Db) (rs : List SubmitReq),
      subUnique db → subUnique (apply_submissions db rs)) ∧
    (∀ (db : Db) (u : User) (aid : String) (file text : Option String)
        (pk : Nat) (a : Assignment) (s0 : Submission),
      db.assignments.find? (fun x => x.assignment_id == aid) = some a →
      (∃ e ∈ db.enrollments, e.user_id = u.id ∧ e.course_id = a.course_id) →
      db.submissions.find? (fun s =>
        s.user_id == u.id && s.assignment_pk == a.id) = some s0 →
      (submit_assignment db (Requester.user u) aid file text pk).2.submissions.length =
          db.submissions.length ∧
      (submit_assignment db (Requester.user u) aid file text pk).2.submissions.find?
          (fun s => s.user_id == u.id && s.assignment_pk == a.id) =
        some { s0 with file := file, text_content := text }) := by
  refine ⟨?_, ?_, ?_⟩
  · intro db req aid file text pk hU
    exact submit_preserves_subUnique db req aid file text pk hU
  · intro db rs hU
    induction rs generalizing db with
    | nil => exact hU
    | cons r t ih =>
      exact ih _ (submit_preserves_subUnique db r.requester r.assignment_id
        r.file r.text_content r.newPk hU)
  · intro db u aid file text pk a s0 hA henr hS
    have hany : (db.enrollments.any fun e =>
        e.user_id == u.id && e.course_id == a.course_id) = true := by
      rw [List.any_eq_true]
      obtain ⟨e, he, h1, h2⟩ := henr
      exact ⟨e, he, by simp [h1, h2]⟩
    simp only [submit_assignment, hA, hany, Bool.not_true,
      Bool.false_eq_true, if_false, hS]
    constructor
    · split <;> simp
    · split <;>
        rw [find?_map_ite db.submissions
              (fun s => s.user_id == u.id && s.assignment_pk == a.id)
              (fun s => { s with file := file, text_content := text })
              (fun s => rfl), hS] <;>
          rfl

/-- Witness for C7: an enrolled user with an existing submission submits
again; the table still has one row and it carries the new text. -/
theorem C7_submission_uniqueness_witness :
    (submit_assignment
      { courses := [], modules := [],
        enrollments := [{ user_id := 3, course_id := 1,
                          status := EnrollStatus.active }],
        progresses := [],
        assignments := [{ id := 10, assignment_id := "hw1", course_id := 1,
                          max_points := 100 }],
        submissions := [{ id := 20, user_id := 3, assignment_pk := 10,
                          file := none, text_content := some "v1",
                          grade := none, feedback := none,
                          is_graded := false, graded_at := none,
                          graded_by := none }],
        documents := [], blogposts := [], notes := [] }
      (Requester.user { id := 3, is_staff := false, is_superuser := false })
      "hw1" none (some "v2") 21).2.submissions.length = 1 :=
  (C7_submission_uniqueness.2.2
    { courses := [], modules := [],
      enrollments := [{ user_id := 3, course_id := 1,
                        status := EnrollStatus.active }],
      progresses := [],
      assignments := [{ id := 10, assignment_id := "hw1", course_id := 1,
                        max_points := 100 }],
      submissions := [{ id := 20, user_id := 3, assignment_pk := 10,
                        file := none, text_content := some "v1",
                        grade := none, feedback := none,
                        is_graded := false, graded_at := none,
                        graded_by := none }],
      documents := [], blogposts := [], notes := [] }
    { id := 3, is_staff := false, is_superuser := false }
    "hw1" none (some "v2") 21
    { id := 10, assignment_id := "hw1", course_id := 1, max_points := 100 }
    { id := 20, user_id := 3, assignment_pk := 10, file := none,
      text_content := some "v1", grade := none, feedback := none,
      is_graded := false, graded_at := none, graded_by := none }
    rfl
    ⟨{ user_id := 3, course_id := 1, status := EnrollStatus.active },
      by simp, rfl, rfl⟩
    rfl).1

/-- C8: when the course instructor grades a submission (POST), the row is
rewritten with the submitted grade and feedback, `is_graded` set,
`graded_at` stamped with the current time and `graded_by` with the grader
— for an arbitrary grade: no hypothesis relates `grade` to the
assignment's `max_points`, because the handler never checks it. -/
theorem C8_instructor_grading (db : Db) (u : User) (sid : Nat) (grade : ℚ)
    (feedback : String) (now : Nat) (s : Submission) (a : Assignment)
    (course : Course)
    (hs : db.submissions.find? (fun x => x.id == sid) = some s)
    (ha : db.assignments.find? (fun x => x.id == s.assignment_pk) = some a)
    (hc : db.courses.find? (fun c => c.id == a.course_id) = some course)
    (hinstr : course.instructor_id = u.id) :
    (instructor_grade_submission db (Requester.user u) sid grade feedback
        now).1 = Response.redirect "instructor_submissions_list" ∧
    (instructor_grade_submission db (Requester.user u) sid grade feedback
        now).2.submissions.find? (fun x => x.id == sid) =
      some { s with
             grade := some grade
             feedback := some feedback
             is_graded := true
             graded_at := some now
             graded_by := some u.id } := by
  have hne : (course.instructor_id != u.id) = false := by simp [hinstr]
  simp only [instructor_grade_submission, hs, ha, hc, hne,
    Bool.false_eq_true, if_false]
  constructor
  · trivial
  · rw [find?_map_ite db.submissions (fun x => x.id == sid)
          (fun s2 => { s2 with
            grade := some grade
            feedback := some feedback
            is_graded := true
            graded_at := some now
            graded_by := some u.id })
          (fun x => rfl), hs]
    rfl

/-- Witness for C8: the instructor records a grade of 150 on an assignment
capped at `max_points = 100`; the handler stores it unquestioned. -/
theorem C8_instructor_grading_witness :
    (instructor_grade_submission
      { courses := [{ id := 1, slug := "c1", instructor_id := 5,
                      enrollment_count := 0, is_active := true,
                      is_open_for_enrollment := true, is_free := true,
                      price := 0 }],
        modules := [], enrollments := [], progresses := [],
        assignments := [{ id := 10, assignment_id := "hw1", course_id := 1,
                          max_points := 100 }],
        submissions := [{ id := 20, user_id := 3, assignment_pk := 10,
                          file := none, text_content := some "work",
                          grade := none, feedback := none,
                          is_graded := false, graded_at := none,
                          graded_by := none }],
        documents := [], blogposts := [], notes := [] }
      (Requester.user { id := 5, is_staff := false, is_superuser := false })
      20 150 "generous" 99).2.submissions.find? (fun x => x.id == 20) =
      some { id := 20, user_id := 3, assignment_pk := 10, file := none,
             text_content := some "work", grade := some 150,
             feedback := some "generous", is_graded := true,
             graded_at := some 99, graded_by := some 5 } :=
  (C8_instructor_grading
    { courses := [{ id := 1, slug := "c1", instructor_id := 5,
                    enrollment_count := 0, is_active := true,
                    is_open_for_enrollment := true, is_free := true,
                    price := 0 }],
      modules := [], enrollments := [], progresses := [],
      assignments := [{ id := 10, assignment_id := "hw1", course_id := 1,
                        max_points := 100 }],
      submissions := [{ id := 20, user_id := 3, assignment_pk := 10,
                        file := none, text_content := some "work",
                        grade := none, feedback := none,
                        is_graded := false, graded_at := none,
                        graded_by := none }],
      documents := [], blogposts := [], notes := [] }
    { id := 5, is_staff := false, is_superuser := false }
    20 150 "generous" 99
    { id := 20, user_id := 3, assignment_pk := 10, file := none,
      text_content := some "work", grade := none, feedback := none,
      is_graded := false, graded_at := none, graded_by := none }
    { id := 10, assignment_id := "hw1", course_id := 1, max_points := 100 }
    { id := 1, slug := "c1", instructor_id := 5, enrollment_count := 0,
      is_active := true, is_open_for_enrollment := true, is_free := true,
      price := 0 }
    rfl rfl rfl rfl).2
